import Mathlib

/-!
Shallow embedding of the connection and trust core of the PlayPalace
BTSpeak client (`btspeak_client/network_manager.py` and
`btspeak_client/runtime.py`).

Modelling conventions:
* Python methods become Lean functions; mutable object state is passed
  explicitly and returned updated.
* Observable side effects (socket opens/closes, trust-store writes,
  trust-prompt invocations, deferred foreground callbacks, user-visible
  messages) are collected in an event trace returned alongside the result.
* Exceptions become `Except` results.  `ssl.SSLCertVerificationError`
  raised by `connect` is one constructor of `ConnErr`; any other
  exception raised by `connect` is `ConnErr.other`.
* Cryptographic and platform primitives (SHA-256 hex digest, DER-to-PEM
  conversion, the fallback certificate decoder, URL host parsing) are
  opaque function parameters bundled in `Prims`; the code treats them as
  black boxes, so the embedding does too.
* Packet schema validation (`packet_validator.validate_outgoing` /
  `validate_incoming`) is an external module not part of the analysed
  core; its verdict on a packet is an abstract boolean predicate held in
  the environment, and a packet is represented by the only field this
  core reads, its `type` key.
* Debug logging (`_debug`, `_debug_log`) has no observable effect on any
  analysed behaviour and is not modelled.
-/

namespace PlayPalace

/-- Python `str.upper()` restricted to the ASCII range (the inputs here
are hex digests and protocol strings), as a kernel-evaluable function. -/
def pyUpper (s : String) : String := String.mk (s.data.map Char.toUpper)

/-- Python `str.lower()` restricted to the ASCII range. -/
def pyLower (s : String) : String := String.mk (s.data.map Char.toLower)

/-- Python `str.startswith`, as a kernel-evaluable function. -/
def pyStartsWith (s pre : String) : Bool := pre.data.isPrefixOf s.data

/-- Truthiness of a Python optional string: `None` and `""` are falsy. -/
def truthyStr (s : Option String) : Bool :=
  match s with
  | none => false
  | some v => v != ""

/-- Truthiness of Python optional bytes: `None` and `b""` are falsy. -/
def truthyBytes (b : Option (List Nat)) : Bool :=
  match b with
  | none => false
  | some l => !l.isEmpty

/-- Decoded certificate dictionary as returned by `getpeercert()` /
`_decode_certificate_dict`; an absent key is the empty default, so the
all-empty value represents the empty dict `{}`. -/
structure CertDict where
  subject : List (List (String × String))
  issuer : List (List (String × String))
  subjectAltName : List (String × String)
  notBefore : String
  notAfter : String
  deriving DecidableEq, Repr

instance : Inhabited CertDict := ⟨⟨[], [], [], "", ""⟩⟩

/-- Negotiated TLS socket as seen through
`websocket.transport.get_extra_info("ssl_object")`. -/
structure Socket where
  hasTransport : Bool
  hasSslObj : Bool
  der : Option (List Nat)
  certDict : Option CertDict
  deriving DecidableEq, Repr

/-- Opaque platform primitives used by the certificate code. -/
structure Prims where
  sha256hex : List Nat → String
  derToPem : List Nat → String
  decodeCert : String → Option CertDict
  parseHost : String → Option String

/-- Mirror of the `CertificateInfo` dataclass. -/
structure CertificateInfo where
  host : String
  common_name : String
  sans : List String
  issuer : String
  valid_from : String
  valid_to : String
  fingerprint : String
  fingerprint_hex : String
  pem : String
  matches_host : Bool
  deriving DecidableEq, Repr

/-- Persisted trusted-certificate record, keyed by server id in the
config manager; mirrors the dict written by `_store_trusted_certificate`. -/
structure TrustEntry where
  fingerprint : String
  pem : String
  host : String
  common_name : String
  deriving DecidableEq, Repr

/-- Wire packet, reduced to the only field the analysed core reads
directly: `packet.get("type")`.  Everything else is visible to the
abstract schema validator only. -/
structure Packet where
  typ : Option String
  deriving DecidableEq, Repr

/-- Error raised by `connect(...)` when opening a websocket. -/
inductive ConnErr where
  /-- `ssl.SSLCertVerificationError` -/
  | certVerification
  /-- any other exception -/
  | other
  deriving DecidableEq, Repr

/-- Errors that can abort the TLS/connection code. -/
inductive TLSErr where
  /-- `TLSUserDeclinedError` -/
  | userDeclined
  /-- `ssl.SSLError("Trusted certificate fingerprint mismatch.")` -/
  | fingerprintMismatch
  /-- uncaught exception propagating from `connect` -/
  | connectError (e : ConnErr)
  deriving DecidableEq, Repr

/-- Observable side effects of the network manager. -/
inductive NEvent where
  /-- `connect(server_url)` with no TLS -/
  | connectPlain
  /-- `connect(server_url, ssl=create_default_context())` -/
  | connectDefault
  /-- `connect(server_url, ssl=<CERT_NONE context>)` -/
  | connectNoVerify
  /-- `websocket.close()` -/
  | closeSocket
  /-- `self.trust_prompt(cert_info)` called -/
  | promptInvoked
  /-- `config_manager.set_trusted_certificate(server_id, {...})` -/
  | storeSet (entry : TrustEntry)
  /-- deferred `event_handler.add_history(message, "activity")` -/
  | addHistory (message : String)
  /-- `await websocket.send(json.dumps(packet))` on the loop thread -/
  | sendFrame (p : Packet)
  /-- `asyncio.run_coroutine_threadsafe(self.ws.send(...), self.loop)` -/
  | submitSend (p : Packet)
  /-- deferred `self._handle_packet(packet)` -/
  | deferPacket (p : Packet)
  /-- deferred `event_handler.on_connection_lost()` -/
  | deferConnectionLost
  /-- foreground `handler(packet)` dispatch inside `_handle_packet` -/
  | handlerCall (name : String) (p : Packet)
  deriving DecidableEq, Repr

/-- Environment of a `NetworkManager`: its collaborators and the
network's behaviour during the call under analysis. -/
structure NMEnv where
  prims : Prims
  /-- `getattr(self.event_handler, "config_manager", None)` is truthy -/
  hasConfigManager : Bool
  /-- `getattr(self.event_handler, "server_id", None)` -/
  server_id : Option String
  /-- record held by the config manager for `server_id` -/
  storedEntry : Option TrustEntry
  /-- the `trust_prompt` collaborator, when supplied -/
  trust_prompt : Option (CertificateInfo → Bool)
  /-- `event_handler.add_history` exists and is callable -/
  hasAddHistory : Bool
  /-- `event_handler.on_connection_lost` exists and is callable -/
  hasOnConnectionLost : Bool
  /-- outcome of `connect(url)` without TLS -/
  plainConnect : Except ConnErr Socket
  /-- outcome of `connect(url, ssl=create_default_context())` -/
  defaultConnect : Except ConnErr Socket
  /-- outcome of `connect(url, ssl=<verification-disabled context>)` -/
  noverifyConnect : Except ConnErr Socket
  /-- verdict of `packet_validator.validate_outgoing` -/
  validOutgoing : Packet → Bool
  /-- verdict of `packet_validator.validate_incoming` -/
  validIncoming : Packet → Bool
  /-- message of the schema error for an invalid outgoing packet -/
  schemaMsgOut : Packet → String
  /-- message of the schema error for an invalid incoming packet -/
  schemaMsgIn : Packet → String
  /-- `getattr(self.event_handler, name, None)` is callable -/
  handlerDefined : String → Bool
  /-- `json.loads` on a received frame, `none` on `JSONDecodeError` -/
  decode : String → Option Packet
  /-- `run_coroutine_threadsafe(self.ws.send(...), self.loop)` raises no
  exception -/
  submitOk : Bool

/-- Mutable `NetworkManager` state touched by the analysed methods. -/
structure NMState where
  connected : Bool
  /-- `self.ws is not None` -/
  wsOpen : Bool
  /-- `self.loop is not None` -/
  loopSet : Bool
  validation_errors : Nat
  should_stop : Bool
  deriving DecidableEq, Repr

/-- Embedding of `NetworkManager._extract_peer_certificate`.  Returns
`(fingerprint_hex, cert_dict, pem)`. -/
def extract_peer_certificate (pr : Prims) (websocket : Option Socket) :
    Option String × Option CertDict × Option String :=
  match websocket with
  | none => (none, none, none)
  | some ws =>
    if !ws.hasTransport then (none, none, none)
    else if !ws.hasSslObj then (none, none, none)
    else
      let der := ws.der
      let pem : Option String :=
        if truthyBytes der then some (pr.derToPem (der.getD [])) else none
      let cert_dict : Option CertDict :=
        if ws.certDict.isNone && truthyStr pem then pr.decodeCert (pem.getD "")
        else ws.certDict
      if !truthyBytes der || cert_dict.isNone then (none, cert_dict, none)
      else (some (pyUpper (pr.sha256hex (der.getD []))), cert_dict, pem)

/-- Embedding of `NetworkManager._get_trusted_certificate_entry`. -/
def get_trusted_certificate_entry (env : NMEnv) : Option TrustEntry :=
  if !env.hasConfigManager || !truthyStr env.server_id then none
  else env.storedEntry

/-- Embedding of `NetworkManager._verify_pinned_certificate`. -/
def verify_pinned_certificate (env : NMEnv) (websocket : Socket) :
    Except TLSErr Unit × List NEvent :=
  let f
    := (extract_peer_certificate env.prims (some websocket)).1
  match get_trusted_certificate_entry env with
  | none => (Except.ok (), [])
  | some entry =>
    let expected := pyUpper entry.fingerprint
    if !truthyStr f || expected != pyUpper (f.getD "") then
      (Except.error TLSErr.fingerprintMismatch, [NEvent.closeSocket])
    else (Except.ok (), [])

/-- Embedding of `NetworkManager._connect_with_trusted_certificate`:
connect with verification disabled and pin to the stored fingerprint. -/
def connect_with_trusted_certificate (env : NMEnv) (trust_entry : TrustEntry) :
    Except TLSErr Socket × List NEvent :=
  match env.noverifyConnect with
  | Except.error e => (Except.error (TLSErr.connectError e), [NEvent.connectNoVerify])
  | Except.ok ws =>
    let (r, tr) := verify_pinned_certificate env ws
    (r.map (fun _ => ws), NEvent.connectNoVerify :: tr)

/-- Embedding of `NetworkManager._open_connection`. -/
def open_connection (env : NMEnv) (server_url : String) :
    Except TLSErr Socket × List NEvent :=
  if !pyStartsWith server_url "wss://" then
    match env.plainConnect with
    | Except.error e => (Except.error (TLSErr.connectError e), [NEvent.connectPlain])
    | Except.ok ws => (Except.ok ws, [NEvent.connectPlain])
  else
    match get_trusted_certificate_entry env with
    | some trust_entry => connect_with_trusted_certificate env trust_entry
    | none =>
      match env.defaultConnect with
      | Except.ok ws =>
        let (r, tr) := verify_pinned_certificate env ws
        (r.map (fun _ => ws), NEvent.connectDefault :: tr)
      | Except.error ConnErr.certVerification =>
        (Except.error TLSErr.userDeclined, [NEvent.connectDefault])
      | Except.error e =>
        (Except.error (TLSErr.connectError e), [NEvent.connectDefault])

/-- Inner fold of `_build_certificate_info`: the nested loop over
`subject` keeps overwriting `common_name` with each `commonName` value. -/
def commonNameOf (subject : List (List (String × String))) : String :=
  subject.foldl
    (fun acc part =>
      part.foldl (fun acc2 kv => if kv.1 == "commonName" then kv.2 else acc2) acc)
    ""

/-- SAN extraction of `_build_certificate_info`: DNS entries only,
matched case-insensitively on the kind. -/
def sansOf (subjectAltName : List (String × String)) : List String :=
  (subjectAltName.filter (fun kv => pyLower kv.1 == "dns")).map (fun kv => kv.2)

/-- Issuer rendering of `_build_certificate_info`. -/
def issuerTextOf (issuer : List (List (String × String))) : String :=
  String.intercalate ", " (issuer.flatten.map (fun kv => kv.1 ++ "=" ++ kv.2))

/-- Split a character list into two-character chunks, mirroring the
slices `fingerprint_hex[index : index + 2]`. -/
def chunk2 : List Char → List String
  | [] => []
  | [a] => [String.mk [a]]
  | a :: b :: rest => String.mk [a, b] :: chunk2 rest

/-- Display form of a fingerprint: hex pairs joined by colons. -/
def displayFingerprint (fingerprint_hex : String) : String :=
  String.intercalate ":" (chunk2 fingerprint_hex.data)

/-- Embedding of `NetworkManager._build_certificate_info`. -/
def build_certificate_info (cert_dict : CertDict)
    (fingerprint_hex pem host : String) : CertificateInfo :=
  let common_name := commonNameOf cert_dict.subject
  let sans := sansOf cert_dict.subjectAltName
  let issuer_text := issuerTextOf cert_dict.issuer
  let host_lower := pyLower host
  let hostMatches :=
    pyLower common_name == host_lower
      || (sans.map pyLower).contains host_lower
  { host := host
    common_name := common_name
    sans := sans
    issuer := issuer_text
    valid_from := cert_dict.notBefore
    valid_to := cert_dict.notAfter
    fingerprint := displayFingerprint fingerprint_hex
    fingerprint_hex := fingerprint_hex
    pem := pem
    matches_host := hostMatches }

/-- Embedding of `NetworkManager._get_server_host`: `urlparse` hostname
or the empty string. -/
def get_server_host (pr : Prims) (server_url : String) : String :=
  (pr.parseHost server_url).getD ""

/-- Embedding of `NetworkManager._fetch_certificate_info`: probe with a
verification-disabled connection, always closing the probe socket. -/
def fetch_certificate_info (env : NMEnv) (server_url : String) :
    Option CertificateInfo × List NEvent :=
  match env.noverifyConnect with
  | Except.error _ =>
    -- the `websocket` local is still None, so the finally block closes nothing
    (none, [NEvent.connectNoVerify])
  | Except.ok ws =>
    let (f, cert_dict, pem) := extract_peer_certificate env.prims (some ws)
    if !truthyStr f || !truthyStr pem then
      (none, [NEvent.connectNoVerify, NEvent.closeSocket])
    else
      let host := get_server_host env.prims server_url
      (some (build_certificate_info (cert_dict.getD default) (f.getD "")
              (pem.getD "") host),
       [NEvent.connectNoVerify, NEvent.closeSocket])

/-- Embedding of `NetworkManager._store_trusted_certificate`: writes the
trust record through the config manager when both collaborator handles
exist; returns the updated environment. -/
def store_trusted_certificate (env : NMEnv) (cert_info : CertificateInfo) :
    NMEnv × List NEvent :=
  if !env.hasConfigManager || !truthyStr env.server_id then (env, [])
  else
    let entry : TrustEntry :=
      { fingerprint := cert_info.fingerprint_hex
        pem := cert_info.pem
        host := cert_info.host
        common_name := cert_info.common_name }
    ({ env with storedEntry := some entry }, [NEvent.storeSet entry])

/-- Embedding of `NetworkManager._handle_tls_failure`: inspect, prompt,
store, then connect with verification disabled and pin-check.  Returns
the possibly updated environment (trust-store write). -/
def handle_tls_failure (env : NMEnv) (server_url : String) :
    Except TLSErr Socket × NMEnv × List NEvent :=
  let (cert_info?, tr0) := fetch_certificate_info env server_url
  match cert_info? with
  | none => (Except.error TLSErr.userDeclined, env, tr0)
  | some cert_info =>
    let (trust, tr1) :=
      match env.trust_prompt with
      | none => (false, ([] : List NEvent))
      | some p => (p cert_info, [NEvent.promptInvoked])
    if !trust then (Except.error TLSErr.userDeclined, env, tr0 ++ tr1)
    else
      let (env2, tr2) := store_trusted_certificate env cert_info
      match env2.noverifyConnect with
      | Except.error e =>
        (Except.error (TLSErr.connectError e), env2,
         tr0 ++ tr1 ++ tr2 ++ [NEvent.connectNoVerify])
      | Except.ok ws =>
        let (r, tr3) := verify_pinned_certificate env2 ws
        (r.map (fun _ => ws), env2,
         tr0 ++ tr1 ++ tr2 ++ [NEvent.connectNoVerify] ++ tr3)

/-- Embedding of `NetworkManager._probe_default_tls_connection`: a
default-verification probe that closes its socket; only
`ssl.SSLCertVerificationError` is converted to `false`, any other
exception propagates. -/
def probe_default_tls_connection (env : NMEnv) :
    Except ConnErr Bool × List NEvent :=
  match env.defaultConnect with
  | Except.ok _ => (Except.ok true, [NEvent.connectDefault, NEvent.closeSocket])
  | Except.error ConnErr.certVerification =>
    (Except.ok false, [NEvent.connectDefault])
  | Except.error e => (Except.error e, [NEvent.connectDefault])

/-- Embedding of `NetworkManager.prepare_tls_if_needed`: the
preparatory, non-connecting trust flow. -/
def prepare_tls_if_needed (env : NMEnv) (server_url : String) :
    Bool × NMEnv × List NEvent :=
  if !pyStartsWith server_url "wss://" then (true, env, [])
  else if (get_trusted_certificate_entry env).isSome then (true, env, [])
  else
    let (probe, tr0) := probe_default_tls_connection env
    match probe with
    | Except.ok true => (true, env, tr0)
    | Except.error _ =>
      -- `except Exception: return True`: a non-certificate probe failure
      -- lets the real connect attempt proceed
      (true, env, tr0)
    | Except.ok false =>
      let (cert_info?, tr1) := fetch_certificate_info env server_url
      match cert_info? with
      | none => (false, env, tr0 ++ tr1)
      | some cert_info =>
        let (trust, tr2) :=
          match env.trust_prompt with
          | none => (false, ([] : List NEvent))
          | some p => (p cert_info, [NEvent.promptInvoked])
        if !trust then (false, env, tr0 ++ tr1 ++ tr2)
        else
          let (env2, tr3) := store_trusted_certificate env cert_info
          (true, env2, tr0 ++ tr1 ++ tr2 ++ tr3)

/-- Embedding of `NetworkManager._emit_activity`: defers
`add_history(message, "activity")` when the handler exposes it. -/
def emit_activity (env : NMEnv) (message : String) : List NEvent :=
  if env.hasAddHistory then [NEvent.addHistory message] else []

/-- Embedding of `NetworkManager._validate_outgoing_packet`. -/
def validate_outgoing_packet (env : NMEnv) (st : NMState) (packet : Packet) :
    Bool × NMState × List NEvent :=
  if env.validOutgoing packet then (true, st, [])
  else
    let n := st.validation_errors + 1
    (false, { st with validation_errors := n },
     emit_activity env
       ("Blocked invalid outgoing packet #" ++ toString n ++ ": "
         ++ env.schemaMsgOut packet))

/-- Embedding of `NetworkManager._validate_incoming_packet`. -/
def validate_incoming_packet (env : NMEnv) (st : NMState) (packet : Packet) :
    Bool × NMState × List NEvent :=
  if env.validIncoming packet then (true, st, [])
  else
    let n := st.validation_errors + 1
    (false, { st with validation_errors := n },
     emit_activity env
       ("Ignored invalid server packet #" ++ toString n ++ ": "
         ++ env.schemaMsgIn packet))

/-- Embedding of `NetworkManager.send_packet`. -/
def send_packet (env : NMEnv) (st : NMState) (packet : Packet) :
    Bool × NMState × List NEvent :=
  if !st.connected || !st.wsOpen || !st.loopSet then (false, st, [])
  else
    let (ok, st1, tr1) := validate_outgoing_packet env st packet
    if !ok then (false, st1, tr1)
    else if env.submitOk then (true, st1, tr1 ++ [NEvent.submitSend packet])
    else
      -- `run_coroutine_threadsafe` raised: mark the connection lost
      (false, { st1 with connected := false },
       tr1 ++ (if env.hasOnConnectionLost then [NEvent.deferConnectionLost] else []))

/-- Handler-name table of `NetworkManager._handle_packet`. -/
def handlers : List (String × String) :=
  [("authorize_success", "on_authorize_success"),
   ("speak", "on_server_speak"),
   ("play_sound", "on_server_play_sound"),
   ("play_music", "on_server_play_music"),
   ("play_ambience", "on_server_play_ambience"),
   ("stop_ambience", "on_server_stop_ambience"),
   ("add_playlist", "on_server_add_playlist"),
   ("start_playlist", "on_server_start_playlist"),
   ("remove_playlist", "on_server_remove_playlist"),
   ("get_playlist_duration", "on_server_get_playlist_duration"),
   ("menu", "on_server_menu"),
   ("request_input", "on_server_request_input"),
   ("clear_ui", "on_server_clear_ui"),
   ("game_list", "on_server_game_list"),
   ("disconnect", "on_server_disconnect"),
   ("update_options_lists", "on_update_options_lists"),
   ("open_client_options", "on_open_client_options"),
   ("open_server_options", "on_open_server_options"),
   ("table_create", "on_table_create"),
   ("pong", "on_server_pong"),
   ("chat", "on_receive_chat"),
   ("server_status", "on_server_status"),
   ("stop_music", "on_server_stop_music")]

/-- Embedding of `NetworkManager._handle_packet` (runs on the foreground
scheduler): validate as incoming, look up the handler for the packet's
`type`, and dispatch when the event handler defines it. -/
def handle_packet (env : NMEnv) (st : NMState) (packet : Packet) :
    NMState × List NEvent :=
  let (ok, st1, tr1) := validate_incoming_packet env st packet
  if !ok then (st1, tr1)
  else
    let handler_name : Option String :=
      match packet.typ with
      | none => none
      | some t => handlers.lookup t
    match handler_name with
    | none => (st1, tr1)
    | some name =>
      if env.handlerDefined name then
        (st1, tr1 ++ [NEvent.handlerCall name packet])
      else (st1, tr1)

/-- One observation of the receive loop body per iteration. -/
inductive RecvOutcome where
  /-- `asyncio.wait_for(..., timeout=1.0)` raised `TimeoutError` -/
  | timeout
  /-- `websocket.recv()` raised `ConnectionClosed` -/
  | closed
  /-- a frame with this raw payload arrived -/
  | msg (raw : String)
  /-- `disconnect()` set `should_stop` before this poll of the loop
  condition -/
  | stopFlag
  /-- `websocket.recv()` raised an unexpected exception -/
  | recvRaise
  deriving DecidableEq, Repr

/-- How the receive loop of `_connect_and_listen` ended. -/
inductive LoopExit where
  /-- `while not self.should_stop` condition became false -/
  | stopped
  /-- `break` on `ConnectionClosed` -/
  | remoteClosed
  /-- `json.JSONDecodeError` re-raised out of the loop -/
  | decodeError
  /-- unexpected exception propagated out of the loop -/
  | unexpectedError
  deriving DecidableEq, Repr

/-- Embedding of the `while not self.should_stop` receive loop in
`NetworkManager._connect_and_listen`.  An exhausted script models the
stop flag being set with no further frames arriving. -/
def receive_loop (env : NMEnv) (should_stop : Bool)
    (script : List RecvOutcome) : LoopExit × List NEvent :=
  if should_stop then (LoopExit.stopped, [])
  else
    match script with
    | [] => (LoopExit.stopped, [])
    | RecvOutcome.stopFlag :: _ => (LoopExit.stopped, [])
    | RecvOutcome.timeout :: rest => receive_loop env false rest
    | RecvOutcome.closed :: _ => (LoopExit.remoteClosed, [])
    | RecvOutcome.recvRaise :: _ => (LoopExit.unexpectedError, [])
    | RecvOutcome.msg raw :: rest =>
      match env.decode raw with
      | none => (LoopExit.decodeError, [])
      | some packet =>
        let (e, tr) := receive_loop env false rest
        (e, NEvent.deferPacket packet :: tr)

/-- Authorize packet built by `NetworkManager._send_authorize`, reduced
to its `type` discriminator (see the `Packet` convention above). -/
def authorize_packet : Packet := ⟨some "authorize"⟩

/-- Cleanup (`finally`) block of `NetworkManager._connect_and_listen`:
closes the socket when one was opened, and defers `on_connection_lost`
unless the stop was cooperative. -/
def cleanup_events (env : NMEnv) (opened : Bool) (should_stop : Bool) :
    List NEvent :=
  (if opened then [NEvent.closeSocket] else [])
    ++ (if !should_stop && env.hasOnConnectionLost then
          [NEvent.deferConnectionLost]
        else [])

/-- Embedding of `NetworkManager._connect_and_listen`: open the
connection, send the authorize packet, run the receive loop, and always
exit through the single cleanup path. -/
def connect_and_listen (env : NMEnv) (st : NMState) (server_url : String)
    (script : List RecvOutcome) : NMState × List NEvent :=
  match open_connection env server_url with
  | (Except.error e, tr0) =>
    -- `websocket` was never assigned, so the finally block closes nothing;
    -- `TLSUserDeclinedError` is reported as an activity line
    let trE :=
      if e == TLSErr.userDeclined then
        emit_activity env "TLS certificate was not trusted; connection aborted."
      else []
    ({ st with connected := false, wsOpen := false },
     tr0 ++ trE ++ cleanup_events env false st.should_stop)
  | (Except.ok _, tr0) =>
    let st1 := { st with wsOpen := true, connected := true }
    let (okA, st2, trA) := validate_outgoing_packet env st1 authorize_packet
    if !okA then
      -- the RuntimeError from `_send_authorize` reaches the generic
      -- exception handler, then the finally block
      ({ st2 with connected := false, wsOpen := false },
       tr0 ++ trA ++ cleanup_events env true st2.should_stop)
    else
      let (exit, trL) := receive_loop env st2.should_stop script
      let should_stop2 := st2.should_stop || (exit == LoopExit.stopped)
      ({ st2 with connected := false, wsOpen := false,
                  should_stop := should_stop2 },
       tr0 ++ trA ++ [NEvent.sendFrame authorize_packet] ++ trL
         ++ cleanup_events env true should_stop2)

/-- Mirror of the frozen `Credentials` dataclass in `runtime.py`. -/
structure Credentials where
  identity_id : String
  server_id : String
  server_url : String
  username : String
  password : String
  deriving DecidableEq, Repr

/-- Observable side effects of `BTSpeakClientRuntime`. -/
inductive RtEvent where
  /-- `self.network.prepare_tls_if_needed(url)` -/
  | prepareTlsCall (url : String)
  /-- `self.network.connect(url, username, password)` -/
  | netConnect (url username password : String)
  /-- `self.network.disconnect(wait=...)` -/
  | netDisconnect (wait : Bool)
  /-- `self._authorize_event.wait(timeout=<seconds>)` -/
  | waitAuthorize (timeoutSecs : Nat)
  /-- `self._safe_message(...)` or `self.io.notify(...)` -/
  | message (text : String)
  /-- `time.sleep(<seconds>)` -/
  | sleepSecs (n : Int)
  /-- `self.audio_manager.stop_all_audio()` -/
  | stopAllAudio
  deriving DecidableEq, Repr

/-- Mutable `BTSpeakClientRuntime` state touched by the analysed
methods. -/
structure RtState where
  connected : Bool
  running : Bool
  awaiting_authorization : Bool
  authorize_success : Bool
  current_credentials : Option Credentials
  identity_id : Option String
  server_id : Option String
  deriving DecidableEq, Repr

/-- Environment of a runtime call: outcomes of the collaborator calls it
makes.  `wait_result` summarises `self._authorize_event.wait(15.0)`
together with the `_authorize_success` flag the foreground handlers set
before releasing the event: `none` means the wait timed out, `some b`
means the event was set with `_authorize_success = b`. -/
structure RtEnv where
  prepare_ok : Bool
  connect_ok : Bool
  wait_result : Option Bool

/-- Embedding of `BTSpeakClientRuntime._attempt_connection`. -/
def attempt_connection (env : RtEnv) (st : RtState)
    (credentials : Credentials) : Bool × RtState × List RtEvent :=
  let st0 := { st with
    current_credentials := some credentials
    identity_id := some credentials.identity_id
    server_id := some credentials.server_id
    connected := false
    authorize_success := false
    awaiting_authorization := true }
  let trP := [RtEvent.prepareTlsCall credentials.server_url]
  if !env.prepare_ok then
    (false, { st0 with awaiting_authorization := false },
     trP ++ [RtEvent.message "Connection canceled."])
  else
    let trC := trP ++ [RtEvent.netConnect credentials.server_url
                        credentials.username credentials.password]
    if !env.connect_ok then
      (false, { st0 with awaiting_authorization := false },
       trC ++ [RtEvent.message "Failed to start network connection."])
    else
      let authorized := env.wait_result.isSome
      let success := env.wait_result.getD false
      let connectedNow := env.wait_result == some true
      let st1 := { st0 with
        awaiting_authorization := false
        authorize_success := success
        connected := connectedNow }
      let trW := trC ++ [RtEvent.message "Connecting...",
                         RtEvent.waitAuthorize 15]
      if !authorized || !success then
        (false, st1, trW ++ [RtEvent.netDisconnect true,
                             RtEvent.message "Connection failed."])
      else (true, st1, trW)

/-- Fields of a `disconnect` packet as `on_server_disconnect` reads
them.  `reconnect` and `return_to_login` hold the Python truthiness of
the corresponding values; `retry_after` is `none` when absent or
`None`, `some none` when present but not convertible by `int(...)`, and
`some (some n)` when it converts to `n`. -/
structure DisconnectPacket where
  message : Option String
  reconnect : Bool
  retry_after : Option (Option Int)
  return_to_login : Bool
  status_mode : Option String
  deriving DecidableEq, Repr

/-- Embedding of `BTSpeakClientRuntime.on_server_disconnect`. -/
def on_server_disconnect (env : RtEnv) (st : RtState)
    (packet : DisconnectPacket) : RtState × List RtEvent :=
  let msg :=
    if truthyStr packet.message then packet.message.getD ""
    else "Server requested disconnect."
  let should_reconnect := packet.reconnect
  let return_to_login := packet.return_to_login
  let tr0 := [RtEvent.message msg, RtEvent.stopAllAudio]
  let st1 := { st with connected := false }
  -- `if self._awaiting_authorization`: release the authorize event with failure
  let st2 :=
    if st1.awaiting_authorization then { st1 with authorize_success := false }
    else st1
  if return_to_login then
    (st2, tr0 ++ [RtEvent.message "Disconnected. Returning to identity menu."])
  else if !should_reconnect || st2.current_credentials.isNone then (st2, tr0)
  else
    match st2.current_credentials with
    | none => (st2, tr0)
    | some creds =>
      let delay : Int :=
        match packet.retry_after with
        | none => 3
        | some none => 3
        | some (some n) => max 1 n
      let trStatus :=
        if truthyStr packet.status_mode then
          [RtEvent.message
            ("Server status is " ++ packet.status_mode.getD "" ++ ".")]
        else []
      let trSleep := tr0 ++ trStatus
        ++ [RtEvent.message
              ("Reconnecting in " ++ toString delay ++ " seconds..."),
            RtEvent.sleepSecs delay]
      if !st2.running then (st2, trSleep)
      else
        let st3 := { st2 with
          authorize_success := false
          awaiting_authorization := true }
        let trConn := trSleep ++ [RtEvent.netConnect creds.server_url
                                    creds.username creds.password]
        if !env.connect_ok then
          ({ st3 with awaiting_authorization := false },
           trConn ++ [RtEvent.message "Reconnect failed."])
        else
          let authorized := env.wait_result.isSome
          let success := env.wait_result.getD false
          let st4 := { st3 with
            awaiting_authorization := false
            authorize_success := success }
          let trW := trConn ++ [RtEvent.message "Reconnecting...",
                                RtEvent.waitAuthorize 15]
          if !authorized || !success then
            (st4, trW ++ [RtEvent.netDisconnect true,
                          RtEvent.message "Reconnect failed."])
          else (st4, trW ++ [RtEvent.message "Reconnected."])

/-- Test for the network-connect event, used to count reconnect
attempts. -/
def isNetConnect : RtEvent → Bool
  | RtEvent.netConnect _ _ _ => true
  | _ => false

/-- Test for the trust-prompt event. -/
def isPromptInvoked : NEvent → Bool
  | NEvent.promptInvoked => true
  | _ => false

/-- Test for a trust-store write event. -/
def isStoreSet : NEvent → Bool
  | NEvent.storeSet _ => true
  | _ => false

/-- Test for a foreground handler dispatch event. -/
def isHandlerCall : NEvent → Bool
  | NEvent.handlerCall _ _ => true
  | _ => false

/-- Test for any interaction with a socket: opening one, closing one, or
queuing bytes for transmission. -/
def isSocketTouch : NEvent → Bool
  | NEvent.connectPlain => true
  | NEvent.connectDefault => true
  | NEvent.connectNoVerify => true
  | NEvent.closeSocket => true
  | NEvent.sendFrame _ => true
  | NEvent.submitSend _ => true
  | _ => false

/-- Test for the queue-for-transmission event of `send_packet`. -/
def isSubmitSend : NEvent → Bool
  | NEvent.submitSend _ => true
  | _ => false

/-! Concrete fixtures used by witnesses and counterexamples. -/

/-- Fixture primitives: a constant digest and trivial parsers. -/
def prims0 : Prims :=
  { sha256hex := fun _ => "aa"
    derToPem := fun _ => "pem"
    decodeCert := fun _ => some default
    parseHost := fun _ => some "example.com" }

/-- Fixture socket whose extraction succeeds with fingerprint `"AA"`. -/
def sock0 : Socket :=
  { hasTransport := true, hasSslObj := true
    der := some [0], certDict := some default }

/-- Fixture trust record whose fingerprint does not match `sock0`. -/
def entryFF : TrustEntry :=
  { fingerprint := "FF", pem := "p", host := "h", common_name := "c" }

/-- Fixture trust record matching `sock0` up to letter case. -/
def entryLower : TrustEntry :=
  { fingerprint := "aa", pem := "pem", host := "example.com"
    common_name := "example.com" }

/-- Fixture network-manager environment: collaborators present, all
connections succeed against `sock0`, no stored record, an accepting
trust prompt, an always-failing JSON decoder. -/
def envBase : NMEnv :=
  { prims := prims0
    hasConfigManager := true
    server_id := some "s1"
    storedEntry := none
    trust_prompt := some (fun _ => true)
    hasAddHistory := true
    hasOnConnectionLost := true
    plainConnect := Except.ok sock0
    defaultConnect := Except.ok sock0
    noverifyConnect := Except.ok sock0
    validOutgoing := fun _ => true
    validIncoming := fun _ => true
    schemaMsgOut := fun _ => "schema error"
    schemaMsgIn := fun _ => "schema error"
    handlerDefined := fun _ => true
    decode := fun _ => none
    submitOk := true }

/-- Fixture environment with a pinned record that `sock0` mismatches. -/
def envPinned : NMEnv := { envBase with storedEntry := some entryFF }

/-- Fixture environment with a lower-case pinned fingerprint. -/
def envLowerPin : NMEnv := { envBase with storedEntry := some entryLower }

/-- Fixture environment whose default CA verification fails. -/
def envCertFail : NMEnv :=
  { envBase with defaultConnect := Except.error ConnErr.certVerification }

/-- Fixture environment whose default probe fails with a
non-certificate error (host unreachable, connection refused, ...). -/
def envNetFail : NMEnv :=
  { envBase with defaultConnect := Except.error ConnErr.other }

/-- Fixture network-manager state: connected with live socket and loop. -/
def nmConnected : NMState :=
  { connected := true, wsOpen := true, loopSet := true
    validation_errors := 0, should_stop := false }

/-- Fixture certificate info as the inspector derives it from `sock0`
through `prims0`. -/
def info0 : CertificateInfo :=
  build_certificate_info default "AA" "pem" "example.com"

/-- Trust record derived from `info0`. -/
def entryInfo0 : TrustEntry :=
  ⟨info0.fingerprint_hex, info0.pem, info0.host, info0.common_name⟩

/-- Fixture environment after `info0` has been stored. -/
def envStored : NMEnv := { envBase with storedEntry := some entryInfo0 }

/-- Fixture environment whose outgoing validator rejects everything. -/
def envRejectOut : NMEnv := { envBase with validOutgoing := fun _ => false }

/-- Fixture environment whose incoming validator rejects everything. -/
def envRejectIn : NMEnv := { envBase with validIncoming := fun _ => false }

/-- Fixture packets. -/
def pingPacket : Packet := ⟨some "ping"⟩

/-- Fixture packet with an unknown type. -/
def bogusPacket : Packet := ⟨some "bogus"⟩

/-- Fixture packet with a known dispatched type. -/
def menuPacket : Packet := ⟨some "menu"⟩

/-- Fixture credentials. -/
def creds0 : Credentials :=
  { identity_id := "id1", server_id := "s1"
    server_url := "wss://example.com", username := "u", password := "pw" }

/-- Fixture runtime state holding `creds0`. -/
def rtBase : RtState :=
  { connected := true, running := true, awaiting_authorization := false
    authorize_success := false, current_credentials := some creds0
    identity_id := some "id1", server_id := some "s1" }

/-- Fixture runtime environment: TLS preparation and transport start
succeed, the authorize wait times out. -/
def rtEnvTimeout : RtEnv :=
  { prepare_ok := true, connect_ok := true, wait_result := none }

/-- Fixture disconnect packet requesting a reconnect after 5 seconds. -/
def discReconnect : DisconnectPacket :=
  { message := some "bye", reconnect := true, retry_after := some (some 5)
    return_to_login := false, status_mode := none }

/-- Fixture disconnect packet with `return_to_login` set alongside
`reconnect`. -/
def discReturn : DisconnectPacket :=
  { message := none, reconnect := true, retry_after := some (some 5)
    return_to_login := true, status_mode := some "maintenance" }

/-! Helper lemmas shared across claims. -/

/-- Case analysis of `verify_pinned_certificate`: it either succeeds
silently or aborts with the mismatch error after a single close. -/
theorem verify_pinned_cases (env : NMEnv) (ws : Socket) :
    verify_pinned_certificate env ws = (Except.ok (), [])
      ∨ verify_pinned_certificate env ws
          = (Except.error TLSErr.fingerprintMismatch, [NEvent.closeSocket]) := by
  unfold verify_pinned_certificate
  rcases hg : get_trusted_certificate_entry env with _ | entry
  · exact Or.inl rfl
  · dsimp only
    split
    · exact Or.inr rfl
    · exact Or.inl rfl

/-- Case analysis of `open_connection`: the trace is one connect event,
with the pin-check close appended exactly on the mismatch-abort
outcomes; the connect path never invokes the trust prompt, never writes
the trust store, and never defers foreground callbacks. -/
theorem open_connection_cases (env : NMEnv) (server_url : String) :
    (open_connection env server_url).2 = [NEvent.connectPlain]
  ∨ (open_connection env server_url).2 = [NEvent.connectDefault]
  ∨ (open_connection env server_url).2 = [NEvent.connectNoVerify]
  ∨ ((open_connection env server_url).2
        = [NEvent.connectDefault, NEvent.closeSocket]
      ∧ (open_connection env server_url).1
        = Except.error TLSErr.fingerprintMismatch)
  ∨ ((open_connection env server_url).2
        = [NEvent.connectNoVerify, NEvent.closeSocket]
      ∧ (open_connection env server_url).1
        = Except.error TLSErr.fingerprintMismatch) := by
  unfold open_connection
  split
  · rcases h : env.plainConnect with e | ws <;> simp
  · rcases hg : get_trusted_certificate_entry env with _ | entry
    · rcases h : env.defaultConnect with e | ws
      · rcases e <;> simp
      · dsimp only
        rcases verify_pinned_cases env ws with hv | hv <;> rw [hv] <;>
          simp [Except.map]
    · unfold connect_with_trusted_certificate
      rcases h : env.noverifyConnect with e | ws
      · simp
      · dsimp only
        rcases verify_pinned_cases env ws with hv | hv <;> rw [hv] <;>
          simp [Except.map]

/-- When `open_connection` yields a socket its trace is a single
connect event and in particular contains no close. -/
theorem open_connection_ok_trace (env : NMEnv) (server_url : String)
    (ws0 : Socket)
    (h : (open_connection env server_url).1 = Except.ok ws0) :
    (open_connection env server_url).2 = [NEvent.connectPlain]
  ∨ (open_connection env server_url).2 = [NEvent.connectDefault]
  ∨ (open_connection env server_url).2 = [NEvent.connectNoVerify] := by
  rcases open_connection_cases env server_url with h1 | h1 | h1 | ⟨h1, h2⟩ | ⟨h1, h2⟩
  · exact Or.inl h1
  · exact Or.inr (Or.inl h1)
  · exact Or.inr (Or.inr h1)
  · rw [h2] at h; cases h
  · rw [h2] at h; cases h

/-- `verify_pinned_certificate` aborts with the mismatch error and a
socket close whenever a record is pinned and the negotiated fingerprint
is missing or differs after upper-casing. -/
theorem verify_pinned_certificate_mismatch (env : NMEnv) (ws : Socket)
    (entry : TrustEntry)
    (hentry : get_trusted_certificate_entry env = some entry)
    (hmis : truthyStr (extract_peer_certificate env.prims (some ws)).1 = false
        ∨ pyUpper entry.fingerprint
            ≠ pyUpper ((extract_peer_certificate env.prims (some ws)).1.getD "")) :
    verify_pinned_certificate env ws
      = (Except.error TLSErr.fingerprintMismatch, [NEvent.closeSocket]) := by
  unfold verify_pinned_certificate
  rw [hentry]
  rcases hmis with h | h
  · simp [h]
  · have hb : (pyUpper entry.fingerprint
        != pyUpper ((extract_peer_certificate env.prims (some ws)).1.getD ""))
        = true := by
      simpa [bne_iff_ne] using h
    simp [hb]

/-- C1: once a TrustRecord is stored for the current server, a
connection negotiating a certificate whose fingerprint differs from the
stored one (compared, as the code does, after upper-casing both sides)
or no extractable certificate at all is aborted with the
fingerprint-mismatch error; the emitted trace closes the socket before
the error propagates and contains neither a trust-prompt invocation nor
a trust-store write, so the stored record is never replaced on this
path.  The same holds for the full connect path `open_connection`. -/
theorem pinned_fingerprint_mismatch_aborts
    (env : NMEnv) (entry : TrustEntry) (ws : Socket) (server_url : String)
    (hurl : pyStartsWith server_url "wss://" = true)
    (hentry : get_trusted_certificate_entry env = some entry)
    (hconn : env.noverifyConnect = Except.ok ws)
    (hmis : truthyStr (extract_peer_certificate env.prims (some ws)).1 = false
        ∨ pyUpper entry.fingerprint
            ≠ pyUpper ((extract_peer_certificate env.prims (some ws)).1.getD "")) :
    connect_with_trusted_certificate env entry
        = (Except.error TLSErr.fingerprintMismatch,
           [NEvent.connectNoVerify, NEvent.closeSocket])
      ∧ open_connection env server_url
        = (Except.error TLSErr.fingerprintMismatch,
           [NEvent.connectNoVerify, NEvent.closeSocket]) := by
  have hv := verify_pinned_certificate_mismatch env ws entry hentry hmis
  have hc : connect_with_trusted_certificate env entry
      = (Except.error TLSErr.fingerprintMismatch,
         [NEvent.connectNoVerify, NEvent.closeSocket]) := by
    simp [connect_with_trusted_certificate, hconn, hv, Except.map]
  refine ⟨hc, ?_⟩
  simp [open_connection, hurl, hentry, hc]

/-- Witness for C1 at a concrete mismatching environment. -/
theorem pinned_fingerprint_mismatch_aborts_witness :
    connect_with_trusted_certificate envPinned entryFF
        = (Except.error TLSErr.fingerprintMismatch,
           [NEvent.connectNoVerify, NEvent.closeSocket])
      ∧ open_connection envPinned "wss://example.com"
        = (Except.error TLSErr.fingerprintMismatch,
           [NEvent.connectNoVerify, NEvent.closeSocket]) :=
  pinned_fingerprint_mismatch_aborts envPinned entryFF sock0 "wss://example.com"
    (by decide) (by decide) rfl (Or.inr (by decide))

/-- Shape of the extracted fingerprint: absent, or the upper-cased
SHA-256 hex digest of the DER bytes. -/
theorem extract_fingerprint_shape (pr : Prims) (ws : Socket) :
    (extract_peer_certificate pr (some ws)).1 = none
  ∨ (extract_peer_certificate pr (some ws)).1
      = some (pyUpper (pr.sha256hex (ws.der.getD []))) := by
  unfold extract_peer_certificate
  dsimp only
  split
  · exact Or.inl rfl
  · split
    · exact Or.inl rfl
    · split <;> split <;> (try split) <;>
        first | exact Or.inl rfl | exact Or.inr rfl

/-- C9: the pinned-fingerprint comparison is case-insensitive over hex
digits.  First, extraction always produces an upper-cased hex
fingerprint: whatever `_extract_peer_certificate` returns is the
upper-casing of the SHA-256 hex digest of the peer's DER bytes.
Second, when a record is stored whose fingerprint differs from the
negotiated certificate's fingerprint only in letter case (both sides
equal after upper-casing), verification succeeds with no close. -/
theorem fingerprint_comparison_case_insensitive :
    (∀ (pr : Prims) (ws : Socket) (f : String),
        (extract_peer_certificate pr (some ws)).1 = some f →
        f = pyUpper (pr.sha256hex (ws.der.getD [])))
  ∧ (∀ (env : NMEnv) (ws : Socket) (entry : TrustEntry) (f : String),
        get_trusted_certificate_entry env = some entry →
        (extract_peer_certificate env.prims (some ws)).1 = some f →
        f ≠ "" →
        pyUpper entry.fingerprint = pyUpper f →
        verify_pinned_certificate env ws = (Except.ok (), [])) := by
  constructor
  · intro pr ws f h
    rcases extract_fingerprint_shape pr ws with hs | hs
    · rw [hs] at h; cases h
    · rw [hs] at h; exact (Option.some.inj h).symm
  · intro env ws entry f hentry hext hne hcase
    unfold verify_pinned_certificate
    rw [hentry, hext]
    have h1 : (f != "") = true := by simpa [bne_iff_ne] using hne
    simp [truthyStr, h1, hcase]

/-- Witness for C9: the fixture digest `"aa"` is extracted as `"AA"`,
and a stored lower-case fingerprint `"aa"` verifies against it. -/
theorem fingerprint_comparison_case_insensitive_witness :
    "AA" = pyUpper (prims0.sha256hex (sock0.der.getD []))
  ∧ verify_pinned_certificate envLowerPin sock0 = (Except.ok (), []) :=
  ⟨fingerprint_comparison_case_insensitive.1 prims0 sock0 "AA" (by decide),
   fingerprint_comparison_case_insensitive.2 envLowerPin sock0 entryLower "AA"
     (by decide) (by decide) (by decide) (by decide)⟩

/-- C10: for a TLS URL with no stored record, a default-verification
probe failure other than a certificate-verification error makes the
preparatory flow return true with no prompt and no store write (the
trace is just the probe connect and the environment is unchanged); and
a successful probe likewise returns true without prompting, so only a
certificate-verification failure can reach the inspect-and-prompt
sequence. -/
theorem probe_non_cert_error_proceeds
    (env env2 : NMEnv) (server_url url2 : String)
    (hurl : pyStartsWith server_url "wss://" = true)
    (hentry : get_trusted_certificate_entry env = none)
    (hdef : env.defaultConnect = Except.error ConnErr.other) :
    prepare_tls_if_needed env server_url = (true, env, [NEvent.connectDefault])
  ∧ (pyStartsWith url2 "wss://" = true →
      get_trusted_certificate_entry env2 = none →
      (∃ ws, env2.defaultConnect = Except.ok ws) →
      prepare_tls_if_needed env2 url2
        = (true, env2, [NEvent.connectDefault, NEvent.closeSocket])) := by
  constructor
  · simp [prepare_tls_if_needed, probe_default_tls_connection, hurl, hentry,
      hdef]
  · intro h1 h2 h3
    rcases h3 with ⟨ws, h3⟩
    simp [prepare_tls_if_needed, probe_default_tls_connection, h1, h2, h3]

/-- Witness for C10 at concrete environments: an unreachable-host probe
and a CA-verified probe. -/
theorem probe_non_cert_error_proceeds_witness :
    prepare_tls_if_needed envNetFail "wss://example.com"
      = (true, envNetFail, [NEvent.connectDefault])
  ∧ prepare_tls_if_needed envBase "wss://example.com"
      = (true, envBase, [NEvent.connectDefault, NEvent.closeSocket]) := by
  have h := probe_non_cert_error_proceeds envNetFail envBase
    "wss://example.com" "wss://example.com" (by decide) (by decide) rfl
  exact ⟨h.1, h.2 (by decide) (by decide) ⟨sock0, rfl⟩⟩

/-- Trace of the certificate inspector: the probe connect, and the
probe close whenever a socket was obtained. -/
theorem fetch_trace_cases (env : NMEnv) (server_url : String) :
    (fetch_certificate_info env server_url).2 = [NEvent.connectNoVerify]
  ∨ (fetch_certificate_info env server_url).2
      = [NEvent.connectNoVerify, NEvent.closeSocket] := by
  unfold fetch_certificate_info
  rcases hn : env.noverifyConnect with e | ws
  · exact Or.inl rfl
  · dsimp only
    split
    · exact Or.inr rfl
    · exact Or.inr rfl

/-- When the inspector produces info, its probe socket was opened and
closed. -/
theorem fetch_some_trace (env : NMEnv) (server_url : String)
    (info : CertificateInfo)
    (h : (fetch_certificate_info env server_url).1 = some info) :
    (fetch_certificate_info env server_url).2
      = [NEvent.connectNoVerify, NEvent.closeSocket] := by
  unfold fetch_certificate_info at h ⊢
  rcases hn : env.noverifyConnect with e | ws
  · rw [hn] at h; simp at h
  · dsimp only
    split <;> rfl

/-- C3: preparatory trust flow for a fresh server whose default CA
verification fails.  If the prompt accepts, the trust-store set
operation is called exactly once, with the inspected certificate's
fingerprint (the resulting trace is explicit and contains exactly one
`storeSet`, carrying `info.fingerprint_hex`), and the flow returns
true.  If the inspector produces no info, or the prompt declines or is
absent, nothing is stored and the flow returns false.  Finally, a
subsequent connect finds the stored record and uses the pinned-connect
routine, and no connect ever invokes `trust_prompt`. -/
theorem first_trust_flow
    (env : NMEnv) (server_url : String)
    (hurl : pyStartsWith server_url "wss://" = true)
    (hentry : get_trusted_certificate_entry env = none)
    (hdef : env.defaultConnect = Except.error ConnErr.certVerification) :
    (∀ info p, (fetch_certificate_info env server_url).1 = some info →
        env.trust_prompt = some p → p info = true →
        env.hasConfigManager = true → truthyStr env.server_id = true →
        prepare_tls_if_needed env server_url
          = (true,
             { env with storedEntry := some ⟨info.fingerprint_hex, info.pem,
                 info.host, info.common_name⟩ },
             [NEvent.connectDefault, NEvent.connectNoVerify,
              NEvent.closeSocket, NEvent.promptInvoked,
              NEvent.storeSet ⟨info.fingerprint_hex, info.pem, info.host,
                info.common_name⟩]))
  ∧ ((fetch_certificate_info env server_url).1 = none →
      (prepare_tls_if_needed env server_url).1 = false
        ∧ (prepare_tls_if_needed env server_url).2.1 = env
        ∧ ((prepare_tls_if_needed env server_url).2.2.filter isStoreSet = []
            ∧ (prepare_tls_if_needed env server_url).2.2.filter
                isPromptInvoked = []))
  ∧ (∀ info p, (fetch_certificate_info env server_url).1 = some info →
      env.trust_prompt = some p → p info = false →
      prepare_tls_if_needed env server_url
        = (false, env,
           [NEvent.connectDefault, NEvent.connectNoVerify,
            NEvent.closeSocket, NEvent.promptInvoked]))
  ∧ (∀ info, (fetch_certificate_info env server_url).1 = some info →
      env.trust_prompt = none →
      prepare_tls_if_needed env server_url
        = (false, env,
           [NEvent.connectDefault, NEvent.connectNoVerify,
            NEvent.closeSocket]))
  ∧ (∀ env2 url2 e2, get_trusted_certificate_entry env2 = some e2 →
      pyStartsWith url2 "wss://" = true →
      open_connection env2 url2 = connect_with_trusted_certificate env2 e2)
  ∧ (∀ env2 url2, (open_connection env2 url2).2.filter isPromptInvoked
      = []) := by
  refine ⟨?_, ?_, ?_, ?_, ?_, ?_⟩
  · intro info p hfetch hp hpi hcm hsid
    have hfe : fetch_certificate_info env server_url
        = (some info, [NEvent.connectNoVerify, NEvent.closeSocket]) :=
      Prod.ext hfetch (fetch_some_trace env server_url info hfetch)
    simp [prepare_tls_if_needed, probe_default_tls_connection,
      store_trusted_certificate, hurl, hentry, hdef, hfe, hp, hpi, hcm, hsid]
  · intro hfetch
    rcases fetch_trace_cases env server_url with h2 | h2 <;>
      have hfe : fetch_certificate_info env server_url
          = (none, (fetch_certificate_info env server_url).2) :=
        Prod.ext hfetch rfl <;>
      rw [h2] at hfe <;>
      simp [prepare_tls_if_needed, probe_default_tls_connection, hurl,
        hentry, hdef, hfe, isStoreSet, isPromptInvoked]
  · intro info p hfetch hp hpi
    have hfe : fetch_certificate_info env server_url
        = (some info, [NEvent.connectNoVerify, NEvent.closeSocket]) :=
      Prod.ext hfetch (fetch_some_trace env server_url info hfetch)
    simp [prepare_tls_if_needed, probe_default_tls_connection, hurl,
      hentry, hdef, hfe, hp, hpi]
  · intro info hfetch hp
    have hfe : fetch_certificate_info env server_url
        = (some info, [NEvent.connectNoVerify, NEvent.closeSocket]) :=
      Prod.ext hfetch (fetch_some_trace env server_url info hfetch)
    simp [prepare_tls_if_needed, probe_default_tls_connection, hurl,
      hentry, hdef, hfe, hp]
  · intro env2 url2 e2 he2 hu2
    simp [open_connection, he2, hu2]
  · intro env2 url2
    rcases open_connection_cases env2 url2 with hc | hc | hc | ⟨hc, _⟩ | ⟨hc, _⟩ <;>
      rw [hc] <;> rfl

/-- Witness for C3 at a concrete fresh-server environment. -/
theorem first_trust_flow_witness :
    prepare_tls_if_needed envCertFail "wss://example.com"
      = (true,
         { envCertFail with storedEntry := some ⟨info0.fingerprint_hex,
             info0.pem, info0.host, info0.common_name⟩ },
         [NEvent.connectDefault, NEvent.connectNoVerify, NEvent.closeSocket,
          NEvent.promptInvoked,
          NEvent.storeSet ⟨info0.fingerprint_hex, info0.pem, info0.host,
            info0.common_name⟩])
  ∧ (open_connection envPinned "wss://example.com").2.filter isPromptInvoked
      = [] := by
  refine ⟨?_, ?_⟩
  · exact (first_trust_flow envCertFail "wss://example.com" (by decide)
      (by decide) rfl).1 info0 (fun _ => true) (by decide) rfl rfl rfl
      (by decide)
  · exact (first_trust_flow envCertFail "wss://example.com" (by decide)
      (by decide) rfl).2.2.2.2.2 envPinned "wss://example.com"

/-- Counterexample to C2: a fresh TLS server whose default CA
verification fails, with the inspector able to produce certificate info
and an accepting trust prompt supplied.  The connect path nevertheless
fails immediately with the user-declined error; its whole trace is the
single default connect attempt, so the certificate inspector is not
invoked (no verification-disabled probe), `trust_prompt` is not called,
and nothing is stored. -/
theorem connect_path_skips_trust_flow_counterexample :
    open_connection envCertFail "wss://example.com"
      = (Except.error TLSErr.userDeclined, [NEvent.connectDefault])
  ∧ ((fetch_certificate_info envCertFail "wss://example.com").1).isSome
      = true
  ∧ envCertFail.trust_prompt.isSome = true := by
  exact ⟨rfl, by decide, rfl⟩

/-- C2 (amended): on the connect path, a default-CA verification
failure for a fresh server aborts directly with the user-declined error
without inspecting, prompting or storing; the inspect → prompt → store
→ reconnect-with-pinning sequence the claim describes is implemented by
the separate TLS-failure handler (`_handle_tls_failure`, not called
from the connect path), which, when invoked: fails user-declined with
nothing stored if the inspector produces no info; fails user-declined
after prompting, with nothing stored, if the prompt declines; and on
acceptance stores the record exactly once and then behaves exactly like
the verification-disabled pinned connect against the updated store. -/
theorem tls_failure_flow (env : NMEnv) (server_url : String) :
    (pyStartsWith server_url "wss://" = true →
      get_trusted_certificate_entry env = none →
      env.defaultConnect = Except.error ConnErr.certVerification →
      open_connection env server_url
        = (Except.error TLSErr.userDeclined, [NEvent.connectDefault]))
  ∧ ((fetch_certificate_info env server_url).1 = none →
      (handle_tls_failure env server_url).1 = Except.error TLSErr.userDeclined
        ∧ (handle_tls_failure env server_url).2.1 = env
        ∧ (handle_tls_failure env server_url).2.2.filter isStoreSet = [])
  ∧ (∀ info p, (fetch_certificate_info env server_url).1 = some info →
      env.trust_prompt = some p → p info = false →
      handle_tls_failure env server_url
        = (Except.error TLSErr.userDeclined, env,
           [NEvent.connectNoVerify, NEvent.closeSocket,
            NEvent.promptInvoked]))
  ∧ (∀ info p, (fetch_certificate_info env server_url).1 = some info →
      env.trust_prompt = some p → p info = true →
      env.hasConfigManager = true → truthyStr env.server_id = true →
      handle_tls_failure env server_url
        = ((connect_with_trusted_certificate
              { env with storedEntry := some ⟨info.fingerprint_hex, info.pem,
                  info.host, info.common_name⟩ }
              ⟨info.fingerprint_hex, info.pem, info.host,
                info.common_name⟩).1,
           { env with storedEntry := some ⟨info.fingerprint_hex, info.pem,
               info.host, info.common_name⟩ },
           [NEvent.connectNoVerify, NEvent.closeSocket, NEvent.promptInvoked,
            NEvent.storeSet ⟨info.fingerprint_hex, info.pem, info.host,
              info.common_name⟩]
             ++ (connect_with_trusted_certificate
                  { env with storedEntry := some ⟨info.fingerprint_hex,
                      info.pem, info.host, info.common_name⟩ }
                  ⟨info.fingerprint_hex, info.pem, info.host,
                    info.common_name⟩).2)) := by
  refine ⟨?_, ?_, ?_, ?_⟩
  · intro hurl hentry hdef
    simp [open_connection, hurl, hentry, hdef]
  · intro hfetch
    rcases fetch_trace_cases env server_url with h2 | h2 <;>
      have hfe : fetch_certificate_info env server_url
          = (none, (fetch_certificate_info env server_url).2) :=
        Prod.ext hfetch rfl <;>
      rw [h2] at hfe <;>
      simp [handle_tls_failure, hfe, isStoreSet]
  · intro info p hfetch hp hpi
    have hfe : fetch_certificate_info env server_url
        = (some info, [NEvent.connectNoVerify, NEvent.closeSocket]) :=
      Prod.ext hfetch (fetch_some_trace env server_url info hfetch)
    simp [handle_tls_failure, hfe, hp, hpi]
  · intro info p hfetch hp hpi hcm hsid
    have hfe : fetch_certificate_info env server_url
        = (some info, [NEvent.connectNoVerify, NEvent.closeSocket]) :=
      Prod.ext hfetch (fetch_some_trace env server_url info hfetch)
    unfold handle_tls_failure connect_with_trusted_certificate
    rw [hfe]
    dsimp only
    rw [hp]
    dsimp only
    rw [hpi]
    unfold store_trusted_certificate
    simp only [hcm, hsid, Bool.not_true, Bool.false_or, Bool.or_self,
      if_false, Bool.false_eq_true, ite_false]
    rcases hn : env.noverifyConnect with e | ws <;> dsimp only <;> simp [hp]

/-- Witness for the amended C2 at concrete environments: the aborting
connect path, and an accepted TLS-failure flow. -/
theorem tls_failure_flow_witness :
    open_connection envCertFail "wss://example.com"
      = (Except.error TLSErr.userDeclined, [NEvent.connectDefault])
  ∧ handle_tls_failure envBase "wss://example.com"
      = ((connect_with_trusted_certificate envStored entryInfo0).1, envStored,
         [NEvent.connectNoVerify, NEvent.closeSocket, NEvent.promptInvoked,
          NEvent.storeSet entryInfo0]
           ++ (connect_with_trusted_certificate envStored entryInfo0).2) :=
  ⟨(tls_failure_flow envCertFail "wss://example.com").1 (by decide) (by decide)
      rfl,
   (tls_failure_flow envBase "wss://example.com").2.2.2 info0 (fun _ => true)
      (by decide) rfl rfl rfl (by decide)⟩

/-- Shape of `emit_activity`: one deferred history line, or nothing. -/
theorem emit_activity_cases (env : NMEnv) (message : String) :
    emit_activity env message = [NEvent.addHistory message]
      ∨ emit_activity env message = [] := by
  unfold emit_activity
  split
  · exact Or.inl rfl
  · exact Or.inr rfl

/-- C4: with the connection up (connected flag, socket and loop set)
and the transmission queue healthy, `send_packet` transmits if and only
if outgoing validation succeeds.  On validation failure it returns
false with the validation-error counter incremented and a trace free of
any socket interaction (at most the deferred activity line); on success
it returns true, leaves the counter unchanged, and the whole trace is
the single hand-off of the packet to the background loop, which does
not block on network I/O. -/
theorem send_packet_validation_gate
    (env : NMEnv) (st : NMState) (packet : Packet)
    (hc : st.connected = true) (hw : st.wsOpen = true)
    (hl : st.loopSet = true) (hs : env.submitOk = true) :
    (env.validOutgoing packet = false →
      send_packet env st packet
        = (false, { st with validation_errors := st.validation_errors + 1 },
           emit_activity env
             ("Blocked invalid outgoing packet #"
               ++ toString (st.validation_errors + 1) ++ ": "
               ++ env.schemaMsgOut packet))
      ∧ (send_packet env st packet).2.2.filter isSocketTouch = [])
  ∧ (env.validOutgoing packet = true →
      send_packet env st packet = (true, st, [NEvent.submitSend packet]))
  ∧ ((send_packet env st packet).2.2.filter isSubmitSend ≠ []
      ↔ env.validOutgoing packet = true) := by
  have hsend :
      env.validOutgoing packet = false →
        send_packet env st packet
          = (false,
             { st with validation_errors := st.validation_errors + 1 },
             emit_activity env
               ("Blocked invalid outgoing packet #"
                 ++ toString (st.validation_errors + 1) ++ ": "
                 ++ env.schemaMsgOut packet)) := by
    intro hv
    simp [send_packet, validate_outgoing_packet, hc, hw, hl, hv]
  have hsendOk :
      env.validOutgoing packet = true →
        send_packet env st packet = (true, st, [NEvent.submitSend packet]) := by
    intro hv
    simp [send_packet, validate_outgoing_packet, hc, hw, hl, hv, hs]
  refine ⟨fun hv => ⟨hsend hv, ?_⟩, hsendOk, ?_⟩
  · rw [hsend hv]
    rcases emit_activity_cases env
        ("Blocked invalid outgoing packet #"
          ++ toString (st.validation_errors + 1) ++ ": "
          ++ env.schemaMsgOut packet) with he | he <;> rw [he] <;> rfl
  · rcases hv : env.validOutgoing packet
    · rw [hsend hv]
      rcases emit_activity_cases env
          ("Blocked invalid outgoing packet #"
            ++ toString (st.validation_errors + 1) ++ ": "
            ++ env.schemaMsgOut packet) with he | he <;> rw [he] <;>
          simp [isSubmitSend]
    · rw [hsendOk hv]
      simp [isSubmitSend]

/-- Witness for C4 at a rejecting and an accepting validator. -/
theorem send_packet_validation_gate_witness :
    send_packet envRejectOut nmConnected pingPacket
      = (false,
         { nmConnected with
             validation_errors := nmConnected.validation_errors + 1 },
         emit_activity envRejectOut
           ("Blocked invalid outgoing packet #"
             ++ toString (nmConnected.validation_errors + 1) ++ ": "
             ++ envRejectOut.schemaMsgOut pingPacket))
  ∧ send_packet envBase nmConnected pingPacket
      = (true, nmConnected, [NEvent.submitSend pingPacket]) :=
  ⟨((send_packet_validation_gate envRejectOut nmConnected pingPacket
      rfl rfl rfl rfl).1 rfl).1,
   (send_packet_validation_gate envBase nmConnected pingPacket
      rfl rfl rfl rfl).2.1 rfl⟩

/-- C5: receive-path behaviour.  A JSON decode failure is fatal: the
loop exits at once with the decode error, dispatching nothing from the
rest of the incoming stream.  An incoming packet failing schema
validation is dropped: no handler runs, the validation-error counter is
incremented, and the (deferred, per-packet) handling returns normally
so the loop continues.  A validly decoded packet whose type has no
registered handler mapping invokes no handler and raises no error, and
a known type with a defined handler dispatches to exactly that handler
exactly once. -/
theorem receive_path_behaviour :
    (∀ (env : NMEnv) (raw : String) (rest : List RecvOutcome),
        env.decode raw = none →
        receive_loop env false (RecvOutcome.msg raw :: rest)
          = (LoopExit.decodeError, []))
  ∧ (∀ (env : NMEnv) (st : NMState) (packet : Packet),
        env.validIncoming packet = false →
        handle_packet env st packet
          = ({ st with validation_errors := st.validation_errors + 1 },
             emit_activity env
               ("Ignored invalid server packet #"
                 ++ toString (st.validation_errors + 1) ++ ": "
                 ++ env.schemaMsgIn packet))
          ∧ (handle_packet env st packet).2.filter isHandlerCall = [])
  ∧ (∀ (env : NMEnv) (st : NMState) (packet : Packet),
        env.validIncoming packet = true →
        packet.typ.bind (fun t => handlers.lookup t) = none →
        handle_packet env st packet = (st, []))
  ∧ (∀ (env : NMEnv) (st : NMState) (packet : Packet) (t name : String),
        env.validIncoming packet = true →
        packet.typ = some t →
        handlers.lookup t = some name →
        env.handlerDefined name = true →
        handle_packet env st packet
          = (st, [NEvent.handlerCall name packet])) := by
  refine ⟨?_, ?_, ?_, ?_⟩
  · intro env raw rest hdec
    simp [receive_loop, hdec]
  · intro env st packet hv
    have heq : handle_packet env st packet
        = ({ st with validation_errors := st.validation_errors + 1 },
           emit_activity env
             ("Ignored invalid server packet #"
               ++ toString (st.validation_errors + 1) ++ ": "
               ++ env.schemaMsgIn packet)) := by
      simp [handle_packet, validate_incoming_packet, hv]
    refine ⟨heq, ?_⟩
    rw [heq]
    rcases emit_activity_cases env
        ("Ignored invalid server packet #"
          ++ toString (st.validation_errors + 1) ++ ": "
          ++ env.schemaMsgIn packet) with he | he <;> rw [he] <;> rfl
  · intro env st packet hv hlook
    rcases ht : packet.typ with _ | t
    · simp [handle_packet, validate_incoming_packet, hv, ht]
    · rw [ht] at hlook
      simp only [Option.some_bind] at hlook
      simp [handle_packet, validate_incoming_packet, hv, ht, hlook]
  · intro env st packet t name hv ht hlook hdef
    simp [handle_packet, validate_incoming_packet, hv, ht, hlook, hdef]

/-- Witness for C5: a decode failure, an invalid packet, an unknown
type, and a dispatched known type, each at concrete inputs. -/
theorem receive_path_behaviour_witness :
    receive_loop envBase false [RecvOutcome.msg "x"]
      = (LoopExit.decodeError, [])
  ∧ handle_packet envRejectIn nmConnected pingPacket
      = ({ nmConnected with
             validation_errors := nmConnected.validation_errors + 1 },
         emit_activity envRejectIn
           ("Ignored invalid server packet #"
             ++ toString (nmConnected.validation_errors + 1) ++ ": "
             ++ envRejectIn.schemaMsgIn pingPacket))
  ∧ handle_packet envBase nmConnected bogusPacket = (nmConnected, [])
  ∧ handle_packet envBase nmConnected menuPacket
      = (nmConnected,
         [NEvent.handlerCall "on_server_menu" menuPacket]) :=
  ⟨receive_path_behaviour.1 envBase "x" [] rfl,
   (receive_path_behaviour.2.1 envRejectIn nmConnected pingPacket rfl).1,
   receive_path_behaviour.2.2.1 envBase nmConnected bogusPacket rfl
     (by decide),
   receive_path_behaviour.2.2.2 envBase nmConnected menuPacket "menu"
     "on_server_menu" rfl rfl (by decide) rfl⟩

/-- Every event the receive loop itself emits is a deferred packet
hand-off. -/
theorem receive_loop_trace_defers (env : NMEnv) :
    ∀ (script : List RecvOutcome) (s : Bool) (e : NEvent),
      e ∈ (receive_loop env s script).2 → ∃ p, e = NEvent.deferPacket p := by
  intro script
  induction script with
  | nil =>
    intro s e he
    unfold receive_loop at he
    split at he <;> simp at he
  | cons hd tl ih =>
    intro s e he
    unfold receive_loop at he
    split at he
    · simp at he
    · cases hd with
      | timeout => exact ih false e he
      | closed => simp at he
      | stopFlag => simp at he
      | recvRaise => simp at he
      | msg raw =>
        dsimp only at he
        rcases hd2 : env.decode raw with _ | p <;> rw [hd2] at he
        · simp at he
        · dsimp only at he
          rcases List.mem_cons.mp he with he1 | he1
          · exact ⟨p, he1⟩
          · exact ih false e he1

/-- The receive loop never emits a given non-hand-off event. -/
theorem receive_loop_count_zero (env : NMEnv) (script : List RecvOutcome)
    (s : Bool) (x : NEvent) (hx : ∀ p, x ≠ NEvent.deferPacket p) :
    (receive_loop env s script).2.count x = 0 := by
  refine List.count_eq_zero.mpr (fun hmem => ?_)
  rcases receive_loop_trace_defers env script s x hmem with ⟨p, hp⟩
  exact hx p hp

/-- C6 (amended): whenever the receive loop was entered (the connection
opened and the authorize packet validated), every exit — cooperative
stop, remote close, decode failure, or unexpected error — passes
exactly once through the cleanup path: the trace closes the socket
exactly once, and when the exit was not a cooperative stop (the stop
flag is still clear at cleanup) exactly one connection-lost
notification is deferred to the foreground; on a cooperative stop the
socket is still closed but the notification is deliberately
suppressed. -/
theorem listen_loop_cleanup
    (env : NMEnv) (st : NMState) (server_url : String)
    (script : List RecvOutcome) (ws0 : Socket)
    (hstop : st.should_stop = false)
    (hol : env.hasOnConnectionLost = true)
    (hopen : (open_connection env server_url).1 = Except.ok ws0)
    (hauth : env.validOutgoing authorize_packet = true) :
    (connect_and_listen env st server_url script).2.count NEvent.closeSocket
        = 1
  ∧ ((connect_and_listen env st server_url script).1.should_stop = false →
      (connect_and_listen env st server_url script).2.count
          NEvent.deferConnectionLost = 1)
  ∧ ((connect_and_listen env st server_url script).1.should_stop = true →
      (connect_and_listen env st server_url script).2.count
          NEvent.deferConnectionLost = 0) := by
  have hopen2 : open_connection env server_url
      = (Except.ok ws0, (open_connection env server_url).2) :=
    Prod.ext hopen rfl
  have htr0close : (open_connection env server_url).2.count
      NEvent.closeSocket = 0 := by
    rcases open_connection_ok_trace env server_url ws0 hopen with h | h | h <;>
      rw [h] <;> rfl
  have htr0defer : (open_connection env server_url).2.count
      NEvent.deferConnectionLost = 0 := by
    rcases open_connection_ok_trace env server_url ws0 hopen with h | h | h <;>
      rw [h] <;> rfl
  have hloopclose := receive_loop_count_zero env script false
    NEvent.closeSocket (by intro p h; cases h)
  have hloopdefer := receive_loop_count_zero env script false
    NEvent.deferConnectionLost (by intro p h; cases h)
  have hval : validate_outgoing_packet env
      { st with wsOpen := true, connected := true } authorize_packet
      = (true, { st with wsOpen := true, connected := true }, []) := by
    simp [validate_outgoing_packet, hauth]
  unfold connect_and_listen
  rw [hopen2]
  dsimp only
  rw [hval]
  dsimp only
  rw [hstop]
  cases hexit : ((receive_loop env false script).1 == LoopExit.stopped) <;>
    simp [hexit, cleanup_events, List.count_append, List.count_cons,
      authorize_packet, htr0close, htr0defer, hloopclose, hloopdefer, hol]

/-- Witness for the amended C6 at a concrete remote-close run. -/
theorem listen_loop_cleanup_witness :
    (connect_and_listen envBase nmConnected "ws://host"
        [RecvOutcome.closed]).2.count NEvent.closeSocket = 1
  ∧ ((connect_and_listen envBase nmConnected "ws://host"
        [RecvOutcome.closed]).1.should_stop = false →
      (connect_and_listen envBase nmConnected "ws://host"
          [RecvOutcome.closed]).2.count NEvent.deferConnectionLost = 1)
  ∧ ((connect_and_listen envBase nmConnected "ws://host"
        [RecvOutcome.closed]).1.should_stop = true →
      (connect_and_listen envBase nmConnected "ws://host"
          [RecvOutcome.closed]).2.count NEvent.deferConnectionLost = 0) :=
  listen_loop_cleanup envBase nmConnected "ws://host" [RecvOutcome.closed]
    sock0 rfl rfl rfl rfl

/-- Counterexample to C6 as stated: a cooperative stop
(`disconnect()` raised the stop flag) exits the loop through the
cleanup path, which closes the socket, but defers no connection-lost
notification to the foreground even though the handler exists. -/
theorem listen_loop_cleanup_counterexample :
    connect_and_listen envBase nmConnected "ws://host"
        [RecvOutcome.stopFlag]
      = ({ nmConnected with
             connected := false
             wsOpen := false
             should_stop := true },
         [NEvent.connectPlain, NEvent.sendFrame authorize_packet,
          NEvent.closeSocket])
  ∧ envBase.hasOnConnectionLost = true
  ∧ [NEvent.connectPlain, NEvent.sendFrame authorize_packet,
      NEvent.closeSocket].count NEvent.deferConnectionLost = 0 :=
  ⟨rfl, rfl, by decide⟩

/-- C7: after TLS preparation succeeds and the transport starts, the
connect attempt blocks on the one-shot authorize signal with a
15-second timeout; if the wait times out (no `authorize_success` or
`connection_lost` released the signal) or the signal is released with
failure, `attempt_connection` returns false and the trace shows the
transport started, then the 15-second wait, then exactly one
`disconnect(wait=True)` stop of the transport. -/
theorem handshake_timeout_policy
    (env : RtEnv) (st : RtState) (credentials : Credentials)
    (hp : env.prepare_ok = true) (hc : env.connect_ok = true)
    (hw : env.wait_result = none ∨ env.wait_result = some false) :
    (attempt_connection env st credentials).1 = false
  ∧ (attempt_connection env st credentials).2.2
      = [RtEvent.prepareTlsCall credentials.server_url,
         RtEvent.netConnect credentials.server_url credentials.username
           credentials.password,
         RtEvent.message "Connecting...", RtEvent.waitAuthorize 15,
         RtEvent.netDisconnect true,
         RtEvent.message "Connection failed."] := by
  rcases hw with hw | hw <;> constructor <;>
    simp [attempt_connection, hp, hc, hw]

/-- Witness for C7: a concrete 15-second timeout with no released
signal. -/
theorem handshake_timeout_policy_witness :
    (attempt_connection rtEnvTimeout rtBase creds0).1 = false
  ∧ (attempt_connection rtEnvTimeout rtBase creds0).2.2
      = [RtEvent.prepareTlsCall creds0.server_url,
         RtEvent.netConnect creds0.server_url creds0.username
           creds0.password,
         RtEvent.message "Connecting...", RtEvent.waitAuthorize 15,
         RtEvent.netDisconnect true,
         RtEvent.message "Connection failed."] :=
  handshake_timeout_policy rtEnvTimeout rtBase creds0 rfl rfl (Or.inl rfl)

/-- C8: a `disconnect` packet with truthy `reconnect` and
`retry_after = n`, received while credentials are stored and the
runtime is running, produces exactly one reconnect attempt — the only
network-connect event in the trace, carrying the stored url, username
and password — immediately preceded by a sleep of `max 1 n ≥ n`
seconds; a packet with truthy `return_to_login` produces no reconnect
attempt at all, whatever its `reconnect` flag says; and the stored
credentials are exactly the ones the original connect attempt
recorded. -/
theorem server_directed_reconnect
    (env : RtEnv) (st : RtState) (creds : Credentials)
    (hcred : st.current_credentials = some creds)
    (hrun : st.running = true) :
    (∀ (packet : DisconnectPacket) (n : Int),
        packet.reconnect = true → packet.return_to_login = false →
        packet.retry_after = some (some n) →
        ((on_server_disconnect env st packet).2.filter isNetConnect
            = [RtEvent.netConnect creds.server_url creds.username
                creds.password]
          ∧ (∃ i, (on_server_disconnect env st packet).2.get? i
                = some (RtEvent.sleepSecs (max 1 n))
              ∧ (on_server_disconnect env st packet).2.get? (i + 1)
                = some (RtEvent.netConnect creds.server_url creds.username
                    creds.password))
          ∧ n ≤ max 1 n))
  ∧ (∀ packet : DisconnectPacket, packet.return_to_login = true →
      (on_server_disconnect env st packet).2.filter isNetConnect = [])
  ∧ (∀ (env2 : RtEnv) (st2 : RtState) (c : Credentials),
      (attempt_connection env2 st2 c).2.1.current_credentials = some c) := by
  refine ⟨?_, ?_, ?_⟩
  · intro packet n h1 h2 h3
    cases hsm : truthyStr packet.status_mode
    · refine ⟨?_, ⟨3, ?_, ?_⟩, le_max_right 1 n⟩ <;>
        cases haw : st.awaiting_authorization <;>
        cases hck : env.connect_ok <;>
        rcases hwr : env.wait_result with _ | b <;> (try cases b) <;>
        simp [on_server_disconnect, h1, h2, h3, hcred, hrun, hsm, haw, hck,
          hwr, isNetConnect]
    · refine ⟨?_, ⟨4, ?_, ?_⟩, le_max_right 1 n⟩ <;>
        cases haw : st.awaiting_authorization <;>
        cases hck : env.connect_ok <;>
        rcases hwr : env.wait_result with _ | b <;> (try cases b) <;>
        simp [on_server_disconnect, h1, h2, h3, hcred, hrun, hsm, haw, hck,
          hwr, isNetConnect]
  · intro packet h2
    cases haw : st.awaiting_authorization <;>
      simp [on_server_disconnect, h2, haw, isNetConnect]
  · intro env2 st2 c
    cases hp : env2.prepare_ok <;> cases hc : env2.connect_ok <;>
      simp [attempt_connection, hp, hc]
    split <;> rfl

/-- Witness for C8: a reconnect-after-5 packet against stored
credentials, a return-to-login packet, and the credential recording of
a concrete connect attempt. -/
theorem server_directed_reconnect_witness :
    ((on_server_disconnect rtEnvTimeout rtBase discReconnect).2.filter
          isNetConnect
        = [RtEvent.netConnect creds0.server_url creds0.username
            creds0.password]
      ∧ (∃ i, (on_server_disconnect rtEnvTimeout rtBase
              discReconnect).2.get? i
            = some (RtEvent.sleepSecs (max 1 5))
          ∧ (on_server_disconnect rtEnvTimeout rtBase
              discReconnect).2.get? (i + 1)
            = some (RtEvent.netConnect creds0.server_url creds0.username
                creds0.password))
      ∧ (5 : Int) ≤ max 1 5)
  ∧ (on_server_disconnect rtEnvTimeout rtBase discReturn).2.filter
      isNetConnect = []
  ∧ (attempt_connection rtEnvTimeout rtBase creds0).2.1.current_credentials
      = some creds0 :=
  ⟨(server_directed_reconnect rtEnvTimeout rtBase creds0 rfl rfl).1
      discReconnect 5 rfl rfl rfl,
   (server_directed_reconnect rtEnvTimeout rtBase creds0 rfl rfl).2.1
      discReturn rfl,
   (server_directed_reconnect rtEnvTimeout rtBase creds0 rfl rfl).2.2
      rtEnvTimeout rtBase creds0⟩

end PlayPalace
